import Mathlib

/-!
Shallow embedding of the authentication core of the knowledgestore-api
repository (src/controllers/authController.ts, src/utils/auth.ts,
src/middleware/auth.ts) and proofs about it.

External collaborators (bcryptjs, jsonwebtoken, crypto randomness, the
Prisma store, nodemailer) are modelled symbolically:
  - a bcrypt digest is the pair of the hashed plaintext and the salt,
    so that `bcrypt.compare` is exact plaintext comparison;
  - a JWT is a record of its payload fields plus a signature tag that
    equals the signing secret exactly when the signature is valid;
  - randomness (token strings, ids, salts) and the clock are drawn from
    an explicit environment record;
  - the Prisma store is a pair of lists (users, refresh token rows) and
    each Prisma call is the corresponding list operation;
  - an email send is an action that either succeeds or throws, selected
    by the environment flag `emailOk`.
-/

namespace KnowledgeStore

/-- Kind discriminator embedded in a JWT payload
(`type: "access" | "refresh"` in src/utils/auth.ts). -/
inductive TokenKind where
  | access
  | refresh
deriving Repr, DecidableEq

/-- Model of a signed JWT as produced by `jwt.sign({ userId, type }, secret,
{ expiresIn })`: the payload fields plus the signature, where the signature
is valid for a secret exactly when `sig` equals that secret. -/
structure Jwt where
  userId : String
  type : TokenKind
  exp : Nat
  sig : Nat
deriving Repr, DecidableEq

/-- Result of a successful token verification: `{ userId: decoded.userId }`. -/
structure Decoded where
  userId : String
deriving Repr, DecidableEq

/-- Fifteen minutes in milliseconds: the access-token lifetime
(`expiresIn: "15m"`). -/
def accessTokenLifetime : Nat := 15 * 60 * 1000

/-- Seven days in milliseconds: the refresh-token lifetime
(`expiresIn: "7d"`), also used for the stored row expiry. -/
def refreshTokenLifetime : Nat := 7 * 24 * 60 * 60 * 1000

/-- `AuthUtils.generateAccessToken`: sign `{ userId, type: "access" }` with
the shared secret and a 15 minute expiry. -/
def generateAccessToken (userId : String) (secret now : Nat) : Jwt :=
  { userId := userId, type := TokenKind.access,
    exp := now + accessTokenLifetime, sig := secret }

/-- `AuthUtils.generateRefreshToken`: sign `{ userId, type: "refresh" }` with
the shared secret and a 7 day expiry. -/
def generateRefreshToken (userId : String) (secret now : Nat) : Jwt :=
  { userId := userId, type := TokenKind.refresh,
    exp := now + refreshTokenLifetime, sig := secret }

/-- `jwt.verify(token, secret)`: throws when the signature does not match
the secret or the expiry has elapsed, otherwise yields the decoded payload. -/
def jwtVerify (t : Jwt) (secret now : Nat) : Except String Jwt :=
  if t.sig ≠ secret then Except.error "invalid signature"
  else if t.exp ≤ now then Except.error "jwt expired"
  else Except.ok t

/-- `AuthUtils.verifyAccessToken`: run `jwt.verify`, reject a payload whose
`type` is not `"access"`, and collapse every failure to one message. -/
def verifyAccessToken (t : Jwt) (secret now : Nat) : Except String Decoded :=
  match jwtVerify t secret now with
  | Except.error _ => Except.error "Invalid or expired token"
  | Except.ok d =>
    if d.type ≠ TokenKind.access then Except.error "Invalid or expired token"
    else Except.ok { userId := d.userId }

/-- `AuthUtils.verifyRefreshToken`: run `jwt.verify`, reject a payload whose
`type` is not `"refresh"`, and collapse every failure to one message. -/
def verifyRefreshToken (t : Jwt) (secret now : Nat) : Except String Decoded :=
  match jwtVerify t secret now with
  | Except.error _ => Except.error "Invalid or expired refresh token"
  | Except.ok d =>
    if d.type ≠ TokenKind.refresh then Except.error "Invalid or expired refresh token"
    else Except.ok { userId := d.userId }

/-- Result record of `AuthUtils.isPasswordStrong`. -/
structure PasswordCheck where
  valid : Bool
  message : Option String := none
deriving Repr, DecidableEq

/-- The test `/(?=.*[a-z])/.test(password)`: some character lies in a-z. -/
def hasLower (p : String) : Bool :=
  p.data.any fun c => decide ('a' ≤ c) && decide (c ≤ 'z')

/-- The test `/(?=.*[A-Z])/.test(password)`: some character lies in A-Z. -/
def hasUpper (p : String) : Bool :=
  p.data.any fun c => decide ('A' ≤ c) && decide (c ≤ 'Z')

/-- The test `/(?=.*\d)/.test(password)`: some character lies in 0-9. -/
def hasDigit (p : String) : Bool :=
  p.data.any fun c => decide ('0' ≤ c) && decide (c ≤ '9')

/-- The test `/(?=.*[@$!%*?&])/.test(password)`: some character is in the
fixed special set. -/
def hasSpecial (p : String) : Bool :=
  p.data.any fun c => ['@', '$', '!', '%', '*', '?', '&'].contains c

/-- `AuthUtils.isPasswordStrong`, translated check for check in source
order: length, lowercase, uppercase, digit, special. -/
def isPasswordStrong (password : String) : PasswordCheck :=
  if password.length < 8 then
    { valid := false, message := some "Password must be at least 8 characters long" }
  else if !(hasLower password) then
    { valid := false, message := some "Password must contain at least one lowercase letter" }
  else if !(hasUpper password) then
    { valid := false, message := some "Password must contain at least one uppercase letter" }
  else if !(hasDigit password) then
    { valid := false, message := some "Password must contain at least one number" }
  else if !(hasSpecial password) then
    { valid := false, message := some "Password must contain at least one special character" }
  else { valid := true }

/-- The five policy rules of the specification, as pass-predicates paired
with the failure message, in the stated order. -/
def passwordRules : List ((String → Bool) × String) :=
  [ (fun p => decide (8 ≤ p.length), "Password must be at least 8 characters long"),
    (hasLower, "Password must contain at least one lowercase letter"),
    (hasUpper, "Password must contain at least one uppercase letter"),
    (hasDigit, "Password must contain at least one number"),
    (hasSpecial, "Password must contain at least one special character") ]

/-- Specification-side checker: walk the rule list in order and report the
first failing rule's message; valid exactly when every rule passes. -/
def runRules (p : String) : List ((String → Bool) × String) → PasswordCheck
  | [] => { valid := true }
  | r :: rs => if r.1 p then runRules p rs else { valid := false, message := some r.2 }

/-- Specification-side password check over the five fixed rules. -/
def checkPolicySpec (p : String) : PasswordCheck :=
  runRules p passwordRules

theorem isPasswordStrong_eq_spec (p : String) : isPasswordStrong p = checkPolicySpec p := by
  simp only [isPasswordStrong, checkPolicySpec, passwordRules, runRules]
  by_cases h1 : 8 ≤ p.length
  · have h1b : ¬ p.length < 8 := Nat.not_lt.mpr h1
    by_cases h2 : hasLower p
    · by_cases h3 : hasUpper p
      · by_cases h4 : hasDigit p
        · by_cases h5 : hasSpecial p
          · simp [h1, h1b, h2, h3, h4, h5]
          · simp [h1, h1b, h2, h3, h4, h5]
        · simp [h1, h1b, h2, h3, h4]
      · simp [h1, h1b, h2, h3]
    · simp [h1, h1b, h2]
  · simp [h1, Nat.not_le.mp h1]

/-- Claim C8: the policy checker evaluates the five rules (length ≥ 8,
lowercase, uppercase, digit, special from the set at-sign dollar bang
percent star question ampersand) in that fixed order, is valid exactly when
all five pass, reports the first failing rule's message, and decides the six
sample passwords as the specification states. -/
theorem C8_password_policy :
    (∀ p, isPasswordStrong p = checkPolicySpec p)
    ∧ (∀ p, (isPasswordStrong p).valid = true ↔ passwordRules.all (fun r => r.1 p) = true)
    ∧ isPasswordStrong "short1!" =
        { valid := false, message := some "Password must be at least 8 characters long" }
    ∧ isPasswordStrong "alllower1!" =
        { valid := false, message := some "Password must contain at least one uppercase letter" }
    ∧ isPasswordStrong "ALLUPPER1!" =
        { valid := false, message := some "Password must contain at least one lowercase letter" }
    ∧ isPasswordStrong "NoDigits!!" =
        { valid := false, message := some "Password must contain at least one number" }
    ∧ isPasswordStrong "NoSpecial1" =
        { valid := false, message := some "Password must contain at least one special character" }
    ∧ isPasswordStrong "Valid123!" = { valid := true } := by
  refine ⟨isPasswordStrong_eq_spec, ?_, by decide, by decide, by decide, by decide, by decide, by decide⟩
  intro p
  rw [isPasswordStrong_eq_spec]
  simp only [checkPolicySpec, passwordRules, runRules, List.all_cons, List.all_nil]
  by_cases h1 : (8 ≤ p.length)
  · by_cases h2 : hasLower p
    · by_cases h3 : hasUpper p
      · by_cases h4 : hasDigit p
        · by_cases h5 : hasSpecial p
          · simp [h1, h2, h3, h4, h5]
          · simp [h1, h2, h3, h4, h5]
        · simp [h1, h2, h3, h4]
      · simp [h1, h2, h3]
    · simp [h1, h2]
  · simp [h1]

/-- Witness for C8: the policy accepts the sample strong password. -/
theorem C8_password_policy_witness :
    isPasswordStrong "Valid123!" = { valid := true } :=
  C8_password_policy.2.2.2.2.2.2.2

theorem jwtVerify_ok {t u : Jwt} {sec n : Nat} (h : jwtVerify t sec n = Except.ok u) :
    u = t ∧ t.sig = sec ∧ n < t.exp := by
  unfold jwtVerify at h
  by_cases hs : t.sig = sec
  · by_cases he : t.exp ≤ n
    · simp [hs, he] at h
    · simp [hs, he] at h
      exact ⟨h.symm, hs, Nat.not_le.mp he⟩
  · simp [hs] at h

theorem verifyAccessToken_ok {t : Jwt} {sec n : Nat} {d : Decoded}
    (h : verifyAccessToken t sec n = Except.ok d) :
    d.userId = t.userId ∧ t.type = TokenKind.access ∧ t.sig = sec ∧ n < t.exp := by
  unfold verifyAccessToken at h
  cases hj : jwtVerify t sec n with
  | error e => rw [hj] at h; exact absurd h (by simp)
  | ok u =>
    rw [hj] at h
    obtain ⟨hu, hsig, hexp⟩ := jwtVerify_ok hj
    have h2 : (if u.type ≠ TokenKind.access then
                 (Except.error "Invalid or expired token" : Except String Decoded)
               else Except.ok { userId := u.userId }) = Except.ok d := h
    rw [hu] at h2
    by_cases ht : t.type = TokenKind.access
    · rw [if_neg (not_not_intro ht)] at h2
      cases h2
      exact ⟨rfl, ht, hsig, hexp⟩
    · rw [if_pos ht] at h2
      exact absurd h2 (by simp)

theorem verifyRefreshToken_ok {t : Jwt} {sec n : Nat} {d : Decoded}
    (h : verifyRefreshToken t sec n = Except.ok d) :
    d.userId = t.userId ∧ t.type = TokenKind.refresh ∧ t.sig = sec ∧ n < t.exp := by
  unfold verifyRefreshToken at h
  cases hj : jwtVerify t sec n with
  | error e => rw [hj] at h; exact absurd h (by simp)
  | ok u =>
    rw [hj] at h
    obtain ⟨hu, hsig, hexp⟩ := jwtVerify_ok hj
    have h2 : (if u.type ≠ TokenKind.refresh then
                 (Except.error "Invalid or expired refresh token" : Except String Decoded)
               else Except.ok { userId := u.userId }) = Except.ok d := h
    rw [hu] at h2
    by_cases ht : t.type = TokenKind.refresh
    · rw [if_neg (not_not_intro ht)] at h2
      cases h2
      exact ⟨rfl, ht, hsig, hexp⟩
    · rw [if_pos ht] at h2
      exact absurd h2 (by simp)

theorem verifyAccessToken_error (t : Jwt) (sec n : Nat)
    (h : t.sig ≠ sec ∨ t.exp ≤ n ∨ t.type ≠ TokenKind.access) :
    verifyAccessToken t sec n = Except.error "Invalid or expired token" := by
  unfold verifyAccessToken jwtVerify
  by_cases hs : t.sig = sec
  · by_cases he : t.exp ≤ n
    · simp [hs, he]
    · by_cases ht : t.type = TokenKind.access
      · exfalso
        rcases h with h | h | h
        · exact h hs
        · exact he h
        · exact h ht
      · simp [hs, he, ht]
  · simp [hs]

theorem verifyRefreshToken_error (t : Jwt) (sec n : Nat)
    (h : t.sig ≠ sec ∨ t.exp ≤ n ∨ t.type ≠ TokenKind.refresh) :
    verifyRefreshToken t sec n = Except.error "Invalid or expired refresh token" := by
  unfold verifyRefreshToken jwtVerify
  by_cases hs : t.sig = sec
  · by_cases he : t.exp ≤ n
    · simp [hs, he]
    · by_cases ht : t.type = TokenKind.refresh
      · exfalso
        rcases h with h | h | h
        · exact h hs
        · exact he h
        · exact h ht
      · simp [hs, he, ht]
  · simp [hs]

/-- Claim C2: cross-kind tokens are rejected (an access token never passes
refresh verification and vice versa); verification fails on a bad signature,
an elapsed expiry, or a kind mismatch; and a successful verification returns
the userId embedded in the token. -/
theorem C2_token_kind_separation (userId : String) (secret now now2 : Nat) :
    (∀ d, verifyRefreshToken (generateAccessToken userId secret now) secret now2 ≠ Except.ok d)
    ∧ (∀ d, verifyAccessToken (generateRefreshToken userId secret now) secret now2 ≠ Except.ok d)
    ∧ (∀ (t : Jwt) (sec n : Nat), t.sig ≠ sec →
        verifyAccessToken t sec n = Except.error "Invalid or expired token"
        ∧ verifyRefreshToken t sec n = Except.error "Invalid or expired refresh token")
    ∧ (∀ (t : Jwt) (sec n : Nat), t.exp ≤ n →
        verifyAccessToken t sec n = Except.error "Invalid or expired token"
        ∧ verifyRefreshToken t sec n = Except.error "Invalid or expired refresh token")
    ∧ (∀ (t : Jwt) (sec n : Nat), t.type ≠ TokenKind.access →
        verifyAccessToken t sec n = Except.error "Invalid or expired token")
    ∧ (∀ (t : Jwt) (sec n : Nat), t.type ≠ TokenKind.refresh →
        verifyRefreshToken t sec n = Except.error "Invalid or expired refresh token")
    ∧ (∀ (t : Jwt) (sec n : Nat) (d : Decoded),
        verifyAccessToken t sec n = Except.ok d → d.userId = t.userId)
    ∧ (∀ (t : Jwt) (sec n : Nat) (d : Decoded),
        verifyRefreshToken t sec n = Except.ok d → d.userId = t.userId) := by
  refine ⟨?_, ?_, ?_, ?_, ?_, ?_, ?_, ?_⟩
  · intro d hcontra
    have := (verifyRefreshToken_ok hcontra).2.1
    simp [generateAccessToken] at this
  · intro d hcontra
    have := (verifyAccessToken_ok hcontra).2.1
    simp [generateRefreshToken] at this
  · intro t sec n h
    exact ⟨verifyAccessToken_error t sec n (Or.inl h),
           verifyRefreshToken_error t sec n (Or.inl h)⟩
  · intro t sec n h
    exact ⟨verifyAccessToken_error t sec n (Or.inr (Or.inl h)),
           verifyRefreshToken_error t sec n (Or.inr (Or.inl h))⟩
  · intro t sec n h
    exact verifyAccessToken_error t sec n (Or.inr (Or.inr h))
  · intro t sec n h
    exact verifyRefreshToken_error t sec n (Or.inr (Or.inr h))
  · intro t sec n d h
    exact (verifyAccessToken_ok h).1
  · intro t sec n d h
    exact (verifyRefreshToken_ok h).1

/-- Witness for C2 at concrete inputs: an access token for user u1 signed
with secret 5 at time 0 is rejected by refresh verification at time 1. -/
theorem C2_token_kind_separation_witness :
    verifyRefreshToken (generateAccessToken "u1" 5 0) 5 1 ≠ Except.ok { userId := "u1" } :=
  (C2_token_kind_separation "u1" 5 0 1).1 { userId := "u1" }

/-- Model of a bcrypt digest: the hashed plaintext together with the salt.
`bcrypt.compare` then checks the plaintext against the digest exactly. -/
inductive Digest where
  | bcrypt (plain : String) (salt : Nat)
deriving Repr, DecidableEq

/-- `AuthUtils.hashPassword`: bcrypt.hash with a salt drawn from the
environment (each call embeds a fresh random salt). -/
def hashPassword (password : String) (salt : Nat) : Digest :=
  Digest.bcrypt password salt

/-- `AuthUtils.comparePassword`: bcrypt.compare succeeds exactly when the
plaintext matches the one hashed into the digest. -/
def comparePassword (password : String) (d : Digest) : Bool :=
  match d with
  | Digest.bcrypt p _ => password == p

/-- A row of the Prisma `User` model, with the fields the auth core reads
and writes. Nullable columns are `Option`. -/
structure User where
  id : String
  email : String
  name : String
  password : Option Digest
  isVerified : Bool
  verificationToken : Option String
  verificationExpires : Option Nat
  resetPasswordToken : Option String
  resetPasswordExpires : Option Nat
  googleId : Option String
  picture : Option String
deriving Repr, DecidableEq

/-- A row of the Prisma `RefreshToken` model. -/
structure RefreshTokenRow where
  token : Jwt
  userId : String
  expiresAt : Nat
deriving Repr, DecidableEq

/-- The Prisma store consumed by the auth controller. -/
structure Store where
  users : List User
  refreshTokens : List RefreshTokenRow
deriving Repr, DecidableEq

/-- The identity payload extracted from a verified Google token (`getPayload`
or the userinfo endpoint); every field can be absent. -/
structure GooglePayload where
  sub : Option String
  email : Option String
  name : Option String
  given_name : Option String
  picture : Option String
deriving Repr, DecidableEq

/-- Per-request environment: signing secret, clock, the randomness consumed
by one request (bcrypt salt, fresh opaque token, fresh row id), whether the
email collaborator send succeeds, and the outcome of the external Google
token verification. -/
structure Env where
  secret : Nat
  now : Nat
  salt : Nat
  freshToken : String
  freshId : String
  emailOk : Bool
  googleResult : Option GooglePayload
deriving Repr, DecidableEq

/-- View of a user as serialized in responses (secret fields stripped). -/
structure UserView where
  id : String
  email : String
  name : String
  isVerified : Bool
  picture : Option String := none
deriving Repr, DecidableEq

/-- A JSON HTTP response: the status plus the optional body fields the auth
controller ever sets. `res.json(x)` without a status is status 200. -/
structure ApiResponse where
  status : Nat
  error : Option String := none
  code : Option String := none
  message : Option String := none
  user : Option UserView := none
  tokens : Option (Jwt × Jwt) := none
  accessToken : Option Jwt := none
deriving Repr, DecidableEq

/-- Prisma `update where id`: apply `f` to the row(s) with the given id. -/
def updateUser (users : List User) (id : String) (f : User → User) : List User :=
  users.map fun u => if u.id == id then f u else u

/-- Prisma filter `{ gt: new Date() }` on a nullable timestamp column:
a null value never satisfies the comparison. -/
def notExpired (e : Option Nat) (now : Nat) : Bool :=
  match e with
  | some t => decide (now < t)
  | none => false

/-- Model of the zod `z.string().email()` shape check: one at-sign with a
nonempty local part and a domain that contains a dot. -/
def emailShaped (s : String) : Bool :=
  let cs := s.data
  let l := cs.takeWhile (fun c => c != '@')
  match cs.dropWhile (fun c => c != '@') with
  | '@' :: d => !l.isEmpty && !d.isEmpty && !(d.contains '@') && d.contains '.'
  | _ => false

/-- `signupSchema.parse`: the first failing field message, if any
(zod reports `error.errors[0].message`). -/
def signupParse (email password name : String) : Option String :=
  if !(emailShaped email) then some "Invalid email address"
  else if password.length < 8 then some "Password must be at least 8 characters"
  else if name.length < 1 then some "Name is required"
  else none

/-- `loginSchema.parse`. -/
def loginParse (email password : String) : Option String :=
  if !(emailShaped email) then some "Invalid email address"
  else if password.length < 1 then some "Password is required"
  else none

/-- `forgotPasswordSchema.parse`. -/
def forgotParse (email : String) : Option String :=
  if !(emailShaped email) then some "Invalid email address" else none

/-- `resetPasswordSchema.parse`. -/
def resetParse (token password : String) : Option String :=
  if token.length < 1 then some "Token is required"
  else if password.length < 8 then some "Password must be at least 8 characters"
  else none

/-- `AuthController.signup`: shape check, password policy, duplicate email,
create user, best-effort verification email (failure swallowed by the inner
try/catch), 201 with the created user view. -/
def signup (email password name : String) (env : Env) (s : Store) : ApiResponse × Store :=
  match signupParse email password name with
  | some msg => ({ status := 400, error := some msg }, s)
  | none =>
    let check := isPasswordStrong password
    if !check.valid then ({ status := 400, error := check.message }, s)
    else
      match s.users.find? (fun u => u.email == email) with
      | some _ => ({ status := 409, error := some "User already exists with this email" }, s)
      | none =>
        let u : User :=
          { id := env.freshId, email := email, name := name,
            password := some (hashPassword password env.salt),
            isVerified := false,
            verificationToken := some env.freshToken,
            verificationExpires := some (env.now + 24 * 60 * 60 * 1000),
            resetPasswordToken := none, resetPasswordExpires := none,
            googleId := none, picture := none }
        ({ status := 201,
           message := some "Account created successfully. Please check your email to verify your account.",
           user := some { id := u.id, email := u.email, name := u.name, isVerified := u.isVerified } },
         { s with users := s.users ++ [u] })

/-- `AuthController.login`: find by email, require a password hash, compare
the password, require `isVerified`, then mint both tokens and persist the
refresh-token row. -/
def login (email password : String) (env : Env) (s : Store) : ApiResponse × Store :=
  match loginParse email password with
  | some msg => ({ status := 400, error := some msg }, s)
  | none =>
    match s.users.find? (fun u => u.email == email) with
    | none => ({ status := 401, error := some "Invalid email or password" }, s)
    | some u =>
      match u.password with
      | none => ({ status := 401, error := some "Invalid email or password" }, s)
      | some hash =>
        if !(comparePassword password hash) then
          ({ status := 401, error := some "Invalid email or password" }, s)
        else if !u.isVerified then
          ({ status := 401,
             error := some "Please verify your email address before logging in",
             code := some "EMAIL_NOT_VERIFIED" }, s)
        else
          let accessToken := generateAccessToken u.id env.secret env.now
          let refreshTok := generateRefreshToken u.id env.secret env.now
          let row : RefreshTokenRow :=
            { token := refreshTok, userId := u.id, expiresAt := env.now + refreshTokenLifetime }
          ({ status := 200, message := some "Login successful",
             user := some { id := u.id, email := u.email, name := u.name, isVerified := u.isVerified },
             tokens := some (accessToken, refreshTok) },
           { s with refreshTokens := s.refreshTokens ++ [row] })

/-- `AuthController.resendVerification`: find by email, reject missing or
already-verified accounts, overwrite the verification token, then send the
email with no inner try/catch: a throwing send falls into the outer catch
and yields 500 after the store mutation has been committed. -/
def resendVerification (email : String) (env : Env) (s : Store) : ApiResponse × Store :=
  match s.users.find? (fun u => u.email == email) with
  | none => ({ status := 404, error := some "User not found" }, s)
  | some u =>
    if u.isVerified then ({ status := 400, error := some "Email is already verified" }, s)
    else
      let s2 : Store :=
        { s with users := updateUser s.users u.id (fun v =>
            { v with verificationToken := some env.freshToken,
                     verificationExpires := some (env.now + 24 * 60 * 60 * 1000) }) }
      if env.emailOk then
        ({ status := 200, message := some "Verification email sent successfully" }, s2)
      else
        ({ status := 500, error := some "Internal server error" }, s2)

/-- `AuthController.forgotPassword`: always answer with the same generic
message whether or not the account exists; when it exists, persist a reset
token and send the email with no inner try/catch: a throwing send falls
into the outer catch and yields 500 after the store mutation. -/
def forgotPassword (email : String) (env : Env) (s : Store) : ApiResponse × Store :=
  match forgotParse email with
  | some msg => ({ status := 400, error := some msg }, s)
  | none =>
    match s.users.find? (fun u => u.email == email) with
    | none =>
      ({ status := 200,
         message := some "If an account with that email exists, we have sent a password reset link." }, s)
    | some u =>
      let s2 : Store :=
        { s with users := updateUser s.users u.id (fun v =>
            { v with resetPasswordToken := some env.freshToken,
                     resetPasswordExpires := some (env.now + 60 * 60 * 1000) }) }
      if env.emailOk then
        ({ status := 200,
           message := some "If an account with that email exists, we have sent a password reset link." }, s2)
      else
        ({ status := 500, error := some "Internal server error" }, s2)

/-- `AuthController.resetPassword`: shape check, password policy, find the
user by live reset token, store the new hash and clear the reset fields,
delete every refresh-token row of that user, best-effort notification email
(failure swallowed by the inner try/catch), 200. -/
def resetPassword (token password : String) (env : Env) (s : Store) : ApiResponse × Store :=
  match resetParse token password with
  | some msg => ({ status := 400, error := some msg }, s)
  | none =>
    let check := isPasswordStrong password
    if !check.valid then ({ status := 400, error := check.message }, s)
    else
      match s.users.find? (fun u =>
          u.resetPasswordToken == some token && notExpired u.resetPasswordExpires env.now) with
      | none => ({ status := 400, error := some "Invalid or expired reset token" }, s)
      | some u =>
        let s2 : Store :=
          { s with users := updateUser s.users u.id (fun v =>
              { v with password := some (hashPassword password env.salt),
                       resetPasswordToken := none, resetPasswordExpires := none }) }
        let s3 : Store :=
          { s2 with refreshTokens := s2.refreshTokens.filter (fun r => r.userId != u.id) }
        ({ status := 200, message := some "Password reset successfully" }, s3)

/-- `AuthController.refreshToken`: require the token, verify it as a refresh
token (any failure becomes 401 via the catch), require a live stored row for
the token and its userId, then mint a new access token only. The store is
never written. -/
def refreshTokenCtrl (refreshTok : Option Jwt) (env : Env) (s : Store) : ApiResponse × Store :=
  match refreshTok with
  | none => ({ status := 401, error := some "Refresh token is required" }, s)
  | some t =>
    match verifyRefreshToken t env.secret env.now with
    | Except.error _ => ({ status := 401, error := some "Invalid or expired refresh token" }, s)
    | Except.ok decoded =>
      match s.refreshTokens.find? (fun r =>
          r.token == t && r.userId == decoded.userId && notExpired (some r.expiresAt) env.now) with
      | none => ({ status := 401, error := some "Invalid or expired refresh token" }, s)
      | some row =>
        match s.users.find? (fun v => v.id == row.userId) with
        | none => ({ status := 401, error := some "Invalid or expired refresh token" }, s)
        | some u =>
          ({ status := 200,
             accessToken := some (generateAccessToken decoded.userId env.secret env.now),
             user := some { id := u.id, email := u.email, name := u.name, isVerified := u.isVerified } }, s)

/-- JavaScript `a || b` on an optional string: the fallback is used when the
value is absent or empty. -/
def jsOr (a : Option String) (b : String) : String :=
  match a with
  | some s => if s == "" then b else s
  | none => b

/-- The user record `prisma.user.create` builds in `googleAuth` for a
first-time email. -/
def newGoogleUser (env : Env) (g : GooglePayload) (gmail : String) : User :=
  { id := env.freshId, email := gmail,
    name := jsOr g.name (jsOr g.given_name "User"),
    password := none, isVerified := true,
    verificationToken := none, verificationExpires := none,
    resetPasswordToken := none, resetPasswordExpires := none,
    googleId := g.sub, picture := g.picture }

/-- Tail of `AuthController.googleAuth`: mint both tokens for the resolved
user, persist the refresh-token row, and answer 200 with user and tokens. -/
def googleFinish (u : User) (env : Env) (s : Store) : ApiResponse × Store :=
  let accessToken := generateAccessToken u.id env.secret env.now
  let refreshTok := generateRefreshToken u.id env.secret env.now
  let row : RefreshTokenRow :=
    { token := refreshTok, userId := u.id, expiresAt := env.now + refreshTokenLifetime }
  ({ status := 200, message := some "Google authentication successful",
     user := some { id := u.id, email := u.email, name := u.name,
                    isVerified := u.isVerified, picture := u.picture },
     tokens := some (accessToken, refreshTok) },
   { s with refreshTokens := s.refreshTokens ++ [row] })

/-- `AuthController.googleAuth`: require the provider token; the external
two-stage verification outcome is `env.googleResult` (`none` when both
attempts failed); require an email in the payload; then either backfill the
existing user (only when its googleId is unset and the payload carries a
subject) or create a new pre-verified user, and finish with tokens. -/
def googleAuth (token : Option String) (env : Env) (s : Store) : ApiResponse × Store :=
  match token with
  | none => ({ status := 400, error := some "Google token is required" }, s)
  | some _ =>
    match env.googleResult with
    | none => ({ status := 401, error := some "Invalid Google token" }, s)
    | some g =>
      match g.email with
      | none => ({ status := 401, error := some "Unable to get user info from Google token" }, s)
      | some gmail =>
        match s.users.find? (fun u => u.email == gmail) with
        | some u =>
          match u.googleId, g.sub with
          | none, some sub =>
            let u2 : User := { u with googleId := some sub, isVerified := true, picture := g.picture }
            googleFinish u2 env
              { s with users := updateUser s.users u.id (fun v =>
                  { v with googleId := some sub, isVerified := true, picture := g.picture }) }
          | _, _ => googleFinish u env s
        | none =>
          googleFinish (newGoogleUser env g gmail) env
            { s with users := s.users ++ [newGoogleUser env g gmail] }

/-- Claim C3: a refresh-token request, successful or not, leaves the stored
refresh-token rows (indeed the whole store) unchanged, and a successful call
mints a new access token and returns it with the user snapshot — the stored
refresh-token row is neither rotated, replaced, deleted, nor extended. -/
theorem C3_refresh_no_rotation (refreshTok : Option Jwt) (env : Env) (s : Store) :
    (refreshTokenCtrl refreshTok env s).2 = s
    ∧ (∀ (t : Jwt) (d : Decoded) (row : RefreshTokenRow) (u : User),
        refreshTok = some t →
        verifyRefreshToken t env.secret env.now = Except.ok d →
        s.refreshTokens.find? (fun r =>
          r.token == t && r.userId == d.userId && notExpired (some r.expiresAt) env.now) = some row →
        s.users.find? (fun v => v.id == row.userId) = some u →
        (refreshTokenCtrl refreshTok env s).1 =
          { status := 200,
            accessToken := some (generateAccessToken d.userId env.secret env.now),
            user := some { id := u.id, email := u.email, name := u.name,
                           isVerified := u.isVerified } }) := by
  constructor
  · unfold refreshTokenCtrl
    repeat' split
    all_goals rfl
  · intro t d row u ht hv hrow hu
    subst ht
    simp only [refreshTokenCtrl, hv, hrow, hu]

/-- Witness for C3: a concrete store holding one live refresh token, on which
the refresh call succeeds and the store is returned unchanged. -/
theorem C3_refresh_no_rotation_witness :
    (refreshTokenCtrl
        (some (generateRefreshToken "u1" 1 0))
        { secret := 1, now := 0, salt := 0, freshToken := "", freshId := "",
          emailOk := true, googleResult := none }
        { users := [{ id := "u1", email := "a@b.co", name := "A", password := none,
                      isVerified := true, verificationToken := none, verificationExpires := none,
                      resetPasswordToken := none, resetPasswordExpires := none,
                      googleId := some "g", picture := none }],
          refreshTokens := [{ token := generateRefreshToken "u1" 1 0, userId := "u1",
                              expiresAt := 100 }] }).1 =
      { status := 200,
        accessToken := some (generateAccessToken "u1" 1 0),
        user := some { id := "u1", email := "a@b.co", name := "A", isVerified := true } } :=
  (C3_refresh_no_rotation _ _ _).2 (generateRefreshToken "u1" 1 0) { userId := "u1" }
    { token := generateRefreshToken "u1" 1 0, userId := "u1", expiresAt := 100 }
    { id := "u1", email := "a@b.co", name := "A", password := none,
      isVerified := true, verificationToken := none, verificationExpires := none,
      resetPasswordToken := none, resetPasswordExpires := none,
      googleId := some "g", picture := none }
    rfl rfl rfl rfl

/-- Claim C4: login with a correct password for an account whose isVerified
flag is false answers 401 with the distinct code EMAIL_NOT_VERIFIED, issues
no tokens, and leaves the store (so the RefreshToken rows) unchanged. -/
theorem C4_login_unverified (email password : String) (env : Env) (s : Store)
    (u : User) (dg : Digest)
    (hparse : loginParse email password = none)
    (hfind : s.users.find? (fun v => v.email == email) = some u)
    (hpw : u.password = some dg)
    (hcmp : comparePassword password dg = true)
    (hver : u.isVerified = false) :
    login email password env s =
      ({ status := 401,
         error := some "Please verify your email address before logging in",
         code := some "EMAIL_NOT_VERIFIED" }, s) := by
  simp [login, hparse, hfind, hpw, hcmp, hver]

/-- Witness for C4: a concrete unverified account with the right password. -/
theorem C4_login_unverified_witness :
    login "a@b.co" "Valid123!"
        { secret := 1, now := 0, salt := 0, freshToken := "", freshId := "",
          emailOk := true, googleResult := none }
        { users := [{ id := "u1", email := "a@b.co", name := "A",
                      password := some (Digest.bcrypt "Valid123!" 7),
                      isVerified := false, verificationToken := some "v",
                      verificationExpires := some 5, resetPasswordToken := none,
                      resetPasswordExpires := none, googleId := none, picture := none }],
          refreshTokens := [] } =
      ({ status := 401,
         error := some "Please verify your email address before logging in",
         code := some "EMAIL_NOT_VERIFIED" },
       { users := [{ id := "u1", email := "a@b.co", name := "A",
                     password := some (Digest.bcrypt "Valid123!" 7),
                     isVerified := false, verificationToken := some "v",
                     verificationExpires := some 5, resetPasswordToken := none,
                     resetPasswordExpires := none, googleId := none, picture := none }],
         refreshTokens := [] }) :=
  C4_login_unverified "a@b.co" "Valid123!" _ _
    { id := "u1", email := "a@b.co", name := "A",
      password := some (Digest.bcrypt "Valid123!" 7),
      isVerified := false, verificationToken := some "v",
      verificationExpires := some 5, resetPasswordToken := none,
      resetPasswordExpires := none, googleId := none, picture := none }
    (Digest.bcrypt "Valid123!" 7)
    (by decide) (by decide) (by decide) (by decide) (by decide)

/-- Claim C10: a login attempt with a wrong password gets the one generic
401 "Invalid email or password" response, independent of the account's
isVerified flag: two accounts differing in verification status are
indistinguishable to a caller without the password. -/
theorem C10_wrong_password_uniform (email password : String) (env1 env2 : Env)
    (s1 s2 : Store) (u1 u2 : User) (d1 d2 : Digest)
    (hparse : loginParse email password = none)
    (hf1 : s1.users.find? (fun v => v.email == email) = some u1)
    (hp1 : u1.password = some d1)
    (hc1 : comparePassword password d1 = false)
    (hf2 : s2.users.find? (fun v => v.email == email) = some u2)
    (hp2 : u2.password = some d2)
    (hc2 : comparePassword password d2 = false) :
    login email password env1 s1 =
      ({ status := 401, error := some "Invalid email or password" }, s1)
    ∧ (login email password env1 s1).1 = (login email password env2 s2).1 := by
  have e1 : login email password env1 s1 =
      ({ status := 401, error := some "Invalid email or password" }, s1) := by
    simp [login, hparse, hf1, hp1, hc1]
  have e2 : login email password env2 s2 =
      ({ status := 401, error := some "Invalid email or password" }, s2) := by
    simp [login, hparse, hf2, hp2, hc2]
  exact ⟨e1, by rw [e1, e2]⟩

/-- Witness for C10: a verified and an unverified account, same wrong
password, same generic response. -/
theorem C10_wrong_password_uniform_witness :
    (login "a@b.co" "Wrong123!"
        { secret := 1, now := 0, salt := 0, freshToken := "", freshId := "",
          emailOk := true, googleResult := none }
        { users := [{ id := "u1", email := "a@b.co", name := "A",
                      password := some (Digest.bcrypt "Valid123!" 7),
                      isVerified := true, verificationToken := none,
                      verificationExpires := none, resetPasswordToken := none,
                      resetPasswordExpires := none, googleId := none, picture := none }],
          refreshTokens := [] }).1 =
      (login "a@b.co" "Wrong123!"
        { secret := 1, now := 0, salt := 0, freshToken := "", freshId := "",
          emailOk := true, googleResult := none }
        { users := [{ id := "u1", email := "a@b.co", name := "A",
                      password := some (Digest.bcrypt "Valid123!" 7),
                      isVerified := false, verificationToken := none,
                      verificationExpires := none, resetPasswordToken := none,
                      resetPasswordExpires := none, googleId := none, picture := none }],
          refreshTokens := [] }).1 :=
  (C10_wrong_password_uniform "a@b.co" "Wrong123!" _ _ _ _
    { id := "u1", email := "a@b.co", name := "A",
      password := some (Digest.bcrypt "Valid123!" 7),
      isVerified := true, verificationToken := none,
      verificationExpires := none, resetPasswordToken := none,
      resetPasswordExpires := none, googleId := none, picture := none }
    { id := "u1", email := "a@b.co", name := "A",
      password := some (Digest.bcrypt "Valid123!" 7),
      isVerified := false, verificationToken := none,
      verificationExpires := none, resetPasswordToken := none,
      resetPasswordExpires := none, googleId := none, picture := none }
    (Digest.bcrypt "Valid123!" 7) (Digest.bcrypt "Valid123!" 7)
    (by decide) (by decide) (by decide) (by decide)
    (by decide) (by decide) (by decide)).2

/-- Claim C1: a successful reset-password stores the hash of the new
password, clears both reset fields, deletes every RefreshToken row of that
user, and any refresh-token call made afterwards with a token that either
fails verification or verifies to that user (in particular every token
minted for the user before the reset) answers 401 Unauthorized. -/
theorem C1_reset_password_revokes (token password : String) (env : Env) (s : Store) (u : User)
    (hparse : resetParse token password = none)
    (hstrong : (isPasswordStrong password).valid = true)
    (hfind : s.users.find? (fun v =>
        v.resetPasswordToken == some token && notExpired v.resetPasswordExpires env.now) = some u) :
    (resetPassword token password env s).1 =
      { status := 200, message := some "Password reset successfully" }
    ∧ (∀ v ∈ (resetPassword token password env s).2.users, v.id = u.id →
        v.password = some (hashPassword password env.salt)
        ∧ v.resetPasswordToken = none ∧ v.resetPasswordExpires = none)
    ∧ (resetPassword token password env s).2.refreshTokens
        = s.refreshTokens.filter (fun r => r.userId != u.id)
    ∧ (∀ (t : Jwt) (env2 : Env),
        (∀ d, verifyRefreshToken t env2.secret env2.now = Except.ok d → d.userId = u.id) →
        (refreshTokenCtrl (some t) env2 (resetPassword token password env s).2).1
          = { status := 401, error := some "Invalid or expired refresh token" }) := by
  have hrun : resetPassword token password env s =
      ({ status := 200, message := some "Password reset successfully" },
       { users := updateUser s.users u.id (fun v =>
            { v with password := some (hashPassword password env.salt),
                     resetPasswordToken := none, resetPasswordExpires := none }),
         refreshTokens := s.refreshTokens.filter (fun r => r.userId != u.id) }) := by
    simp [resetPassword, hparse, hstrong, hfind]
  refine ⟨by rw [hrun], ?_, by rw [hrun], ?_⟩
  · intro v hv hid
    rw [hrun] at hv
    simp only [updateUser, List.mem_map] at hv
    obtain ⟨w, hw, hveq⟩ := hv
    by_cases hwid : (w.id == u.id) = true
    · rw [if_pos hwid] at hveq
      subst hveq
      exact ⟨rfl, rfl, rfl⟩
    · rw [if_neg hwid] at hveq
      subst hveq
      exact absurd (beq_iff_eq.mpr hid) hwid
  · intro t env2 hall
    rw [hrun]
    unfold refreshTokenCtrl
    cases hv : verifyRefreshToken t env2.secret env2.now with
    | error e => simp [hv]
    | ok d =>
      have hd : d.userId = u.id := hall d hv
      have hnone : (s.refreshTokens.filter (fun r => r.userId != u.id)).find? (fun r =>
          r.token == t && r.userId == d.userId && notExpired (some r.expiresAt) env2.now) = none := by
        rw [List.find?_eq_none]
        intro r hr
        have hne : r.userId ≠ u.id := by
          have h2 := (List.mem_filter.mp hr).2
          simpa using h2
        simp [hd, hne]
      simp [hv, hnone]

/-- Witness for C1: a concrete user with a live reset token and one stored
refresh-token row; after the reset the rows for that user are gone. -/
theorem C1_reset_password_revokes_witness :
    (resetPassword "tok" "Valid123!"
        { secret := 1, now := 0, salt := 3, freshToken := "ft", freshId := "fid",
          emailOk := true, googleResult := none }
        { users := [{ id := "u1", email := "a@b.co", name := "A",
                      password := some (Digest.bcrypt "Old123!x" 1),
                      isVerified := true, verificationToken := none, verificationExpires := none,
                      resetPasswordToken := some "tok", resetPasswordExpires := some 10,
                      googleId := none, picture := none }],
          refreshTokens := [{ token := generateRefreshToken "u1" 1 0, userId := "u1",
                              expiresAt := 100 }] }).1 =
      { status := 200, message := some "Password reset successfully" }
    ∧ (resetPassword "tok" "Valid123!"
        { secret := 1, now := 0, salt := 3, freshToken := "ft", freshId := "fid",
          emailOk := true, googleResult := none }
        { users := [{ id := "u1", email := "a@b.co", name := "A",
                      password := some (Digest.bcrypt "Old123!x" 1),
                      isVerified := true, verificationToken := none, verificationExpires := none,
                      resetPasswordToken := some "tok", resetPasswordExpires := some 10,
                      googleId := none, picture := none }],
          refreshTokens := [{ token := generateRefreshToken "u1" 1 0, userId := "u1",
                              expiresAt := 100 }] }).2.refreshTokens
        = List.filter (fun r => r.userId != "u1")
            [({ token := generateRefreshToken "u1" 1 0, userId := "u1",
                expiresAt := 100 } : RefreshTokenRow)] := by
  have h := C1_reset_password_revokes "tok" "Valid123!"
    { secret := 1, now := 0, salt := 3, freshToken := "ft", freshId := "fid",
      emailOk := true, googleResult := none }
    { users := [{ id := "u1", email := "a@b.co", name := "A",
                  password := some (Digest.bcrypt "Old123!x" 1),
                  isVerified := true, verificationToken := none, verificationExpires := none,
                  resetPasswordToken := some "tok", resetPasswordExpires := some 10,
                  googleId := none, picture := none }],
      refreshTokens := [{ token := generateRefreshToken "u1" 1 0, userId := "u1",
                          expiresAt := 100 }] }
    { id := "u1", email := "a@b.co", name := "A",
      password := some (Digest.bcrypt "Old123!x" 1),
      isVerified := true, verificationToken := none, verificationExpires := none,
      resetPasswordToken := some "tok", resetPasswordExpires := some 10,
      googleId := none, picture := none }
    (by decide) (by decide) (by decide)
  exact ⟨h.1, h.2.2.1⟩

/-- Counterexample to claim C5: a signup request that passes shape
validation ("aaaaaaaa" is 8 characters) for an already registered email is
answered 400 with the password-policy message, not 409 Conflict — the
policy check precedes the duplicate-email check. -/
theorem C5_counterexample :
    signupParse "a@b.co" "aaaaaaaa" "x" = none
    ∧ ((({ users := [{ id := "u1", email := "a@b.co", name := "A",
                       password := some (Digest.bcrypt "Valid123!" 7),
                       isVerified := true, verificationToken := none, verificationExpires := none,
                       resetPasswordToken := none, resetPasswordExpires := none,
                       googleId := none, picture := none }],
           refreshTokens := [] } : Store).users.find?
            (fun v => v.email == "a@b.co")).isSome = true)
    ∧ (signup "a@b.co" "aaaaaaaa" "x"
        { secret := 1, now := 0, salt := 0, freshToken := "ft", freshId := "fid",
          emailOk := true, googleResult := none }
        { users := [{ id := "u1", email := "a@b.co", name := "A",
                      password := some (Digest.bcrypt "Valid123!" 7),
                      isVerified := true, verificationToken := none, verificationExpires := none,
                      resetPasswordToken := none, resetPasswordExpires := none,
                      googleId := none, picture := none }],
          refreshTokens := [] }).1 =
        { status := 400, error := some "Password must contain at least one uppercase letter" }
    ∧ (signup "a@b.co" "aaaaaaaa" "x"
        { secret := 1, now := 0, salt := 0, freshToken := "ft", freshId := "fid",
          emailOk := true, googleResult := none }
        { users := [{ id := "u1", email := "a@b.co", name := "A",
                      password := some (Digest.bcrypt "Valid123!" 7),
                      isVerified := true, verificationToken := none, verificationExpires := none,
                      resetPasswordToken := none, resetPasswordExpires := none,
                      googleId := none, picture := none }],
          refreshTokens := [] }).1.status ≠ 409 := by
  decide

/-- Claim C5 as amended: the password-policy check comes first, so Conflict
is returned only when the password also passes the policy; in that case a
signup for an already registered email answers 409 and leaves the store
(hence the existing record) unchanged. -/
theorem C5_signup_conflict (email password name : String) (env : Env) (s : Store) (u : User)
    (hparse : signupParse email password name = none)
    (hstrong : (isPasswordStrong password).valid = true)
    (hfind : s.users.find? (fun v => v.email == email) = some u) :
    signup email password name env s =
      ({ status := 409, error := some "User already exists with this email" }, s) := by
  simp [signup, hparse, hstrong, hfind]

/-- Witness for the amended C5: a registered email with a policy-passing
password gets 409 and the store is untouched. -/
theorem C5_signup_conflict_witness :
    signup "a@b.co" "Valid123!" "x"
        { secret := 1, now := 0, salt := 0, freshToken := "ft", freshId := "fid",
          emailOk := true, googleResult := none }
        { users := [{ id := "u1", email := "a@b.co", name := "A",
                      password := some (Digest.bcrypt "Other123!" 7),
                      isVerified := true, verificationToken := none, verificationExpires := none,
                      resetPasswordToken := none, resetPasswordExpires := none,
                      googleId := none, picture := none }],
          refreshTokens := [] } =
      ({ status := 409, error := some "User already exists with this email" },
       { users := [{ id := "u1", email := "a@b.co", name := "A",
                     password := some (Digest.bcrypt "Other123!" 7),
                     isVerified := true, verificationToken := none, verificationExpires := none,
                     resetPasswordToken := none, resetPasswordExpires := none,
                     googleId := none, picture := none }],
         refreshTokens := [] }) :=
  C5_signup_conflict "a@b.co" "Valid123!" "x" _ _
    { id := "u1", email := "a@b.co", name := "A",
      password := some (Digest.bcrypt "Other123!" 7),
      isVerified := true, verificationToken := none, verificationExpires := none,
      resetPasswordToken := none, resetPasswordExpires := none,
      googleId := none, picture := none }
    (by decide) (by decide) (by decide)

/-- Counterexample to claim C6: in resend-verification the email send is not
wrapped in an inner try/catch, so a throwing send is propagated to the outer
handler: with the same store and an unverified user, a failing send answers
500 instead of the 200 success answer, after the verification token has
already been overwritten. -/
theorem C6_counterexample :
    (resendVerification "a@b.co"
        { secret := 1, now := 0, salt := 0, freshToken := "ft", freshId := "fid",
          emailOk := false, googleResult := none }
        { users := [{ id := "u1", email := "a@b.co", name := "A",
                      password := some (Digest.bcrypt "Valid123!" 7),
                      isVerified := false, verificationToken := some "v", verificationExpires := some 5,
                      resetPasswordToken := none, resetPasswordExpires := none,
                      googleId := none, picture := none }],
          refreshTokens := [] }).1 =
      { status := 500, error := some "Internal server error" }
    ∧ (resendVerification "a@b.co"
        { secret := 1, now := 0, salt := 0, freshToken := "ft", freshId := "fid",
          emailOk := true, googleResult := none }
        { users := [{ id := "u1", email := "a@b.co", name := "A",
                      password := some (Digest.bcrypt "Valid123!" 7),
                      isVerified := false, verificationToken := some "v", verificationExpires := some 5,
                      resetPasswordToken := none, resetPasswordExpires := none,
                      googleId := none, picture := none }],
          refreshTokens := [] }).1 =
      { status := 200, message := some "Verification email sent successfully" }
    ∧ (resendVerification "a@b.co"
        { secret := 1, now := 0, salt := 0, freshToken := "ft", freshId := "fid",
          emailOk := false, googleResult := none }
        { users := [{ id := "u1", email := "a@b.co", name := "A",
                      password := some (Digest.bcrypt "Valid123!" 7),
                      isVerified := false, verificationToken := some "v", verificationExpires := some 5,
                      resetPasswordToken := none, resetPasswordExpires := none,
                      googleId := none, picture := none }],
          refreshTokens := [] }).2.users =
      [{ id := "u1", email := "a@b.co", name := "A",
         password := some (Digest.bcrypt "Valid123!" 7),
         isVerified := false, verificationToken := some "ft", verificationExpires := some 86400000,
         resetPasswordToken := none, resetPasswordExpires := none,
         googleId := none, picture := none }] := by
  decide

/-- Claim C6 as amended: email-send failures are swallowed in signup and
reset-password (their response and store are independent of whether the
send throws), but in resend-verification and forgot-password a throwing
send propagates to the generic handler and answers 500 — after the store
mutation of the flow has already been performed. -/
theorem C6_email_isolation :
    (∀ (email password name : String) (env : Env) (s : Store) (b : Bool),
        signup email password name { env with emailOk := b } s
          = signup email password name env s)
    ∧ (∀ (token password : String) (env : Env) (s : Store) (b : Bool),
        resetPassword token password { env with emailOk := b } s
          = resetPassword token password env s)
    ∧ (∀ (email : String) (env : Env) (s : Store) (u : User),
        env.emailOk = false →
        s.users.find? (fun v => v.email == email) = some u →
        u.isVerified = false →
        resendVerification email env s =
          ({ status := 500, error := some "Internal server error" },
           { s with users := updateUser s.users u.id (fun v =>
               { v with verificationToken := some env.freshToken,
                        verificationExpires := some (env.now + 24 * 60 * 60 * 1000) }) }))
    ∧ (∀ (email : String) (env : Env) (s : Store) (u : User),
        env.emailOk = false →
        forgotParse email = none →
        s.users.find? (fun v => v.email == email) = some u →
        forgotPassword email env s =
          ({ status := 500, error := some "Internal server error" },
           { s with users := updateUser s.users u.id (fun v =>
               { v with resetPasswordToken := some env.freshToken,
                        resetPasswordExpires := some (env.now + 60 * 60 * 1000) }) })) := by
  refine ⟨?_, ?_, ?_, ?_⟩
  · intro email password name env s b
    cases env
    rfl
  · intro token password env s b
    cases env
    rfl
  · intro email env s u hmail hfind hver
    simp [resendVerification, hfind, hver, hmail]
  · intro email env s u hmail hparse hfind
    simp [forgotPassword, hparse, hfind, hmail]

/-- Witness for the amended C6: signup of a fresh account gives the same
successful answer whether or not the email send throws, and a failing
forgot-password send yields 500 with the reset token already stored. -/
theorem C6_email_isolation_witness :
    signup "b@c.co" "Valid123!" "B"
        { secret := 1, now := 0, salt := 0, freshToken := "ft", freshId := "fid",
          emailOk := true, googleResult := none }
        { users := [], refreshTokens := [] }
      = signup "b@c.co" "Valid123!" "B"
        { secret := 1, now := 0, salt := 0, freshToken := "ft", freshId := "fid",
          emailOk := false, googleResult := none }
        { users := [], refreshTokens := [] }
    ∧ (forgotPassword "a@b.co"
        { secret := 1, now := 0, salt := 0, freshToken := "ft", freshId := "fid",
          emailOk := false, googleResult := none }
        { users := [{ id := "u1", email := "a@b.co", name := "A",
                      password := some (Digest.bcrypt "Valid123!" 7),
                      isVerified := true, verificationToken := none, verificationExpires := none,
                      resetPasswordToken := none, resetPasswordExpires := none,
                      googleId := none, picture := none }],
          refreshTokens := [] }).1 =
      { status := 500, error := some "Internal server error" } := by
  constructor
  · exact (C6_email_isolation.1 "b@c.co" "Valid123!" "B"
      { secret := 1, now := 0, salt := 0, freshToken := "ft", freshId := "fid",
        emailOk := false, googleResult := none }
      { users := [], refreshTokens := [] } true).symm.trans
      (C6_email_isolation.1 "b@c.co" "Valid123!" "B"
        { secret := 1, now := 0, salt := 0, freshToken := "ft", freshId := "fid",
          emailOk := false, googleResult := none }
        { users := [], refreshTokens := [] } false)
  · rw [C6_email_isolation.2.2.2 "a@b.co"
      { secret := 1, now := 0, salt := 0, freshToken := "ft", freshId := "fid",
        emailOk := false, googleResult := none }
      { users := [{ id := "u1", email := "a@b.co", name := "A",
                    password := some (Digest.bcrypt "Valid123!" 7),
                    isVerified := true, verificationToken := none, verificationExpires := none,
                    resetPasswordToken := none, resetPasswordExpires := none,
                    googleId := none, picture := none }],
        refreshTokens := [] }
      { id := "u1", email := "a@b.co", name := "A",
        password := some (Digest.bcrypt "Valid123!" 7),
        isVerified := true, verificationToken := none, verificationExpires := none,
        resetPasswordToken := none, resetPasswordExpires := none,
        googleId := none, picture := none }
      rfl (by decide) (by decide)]

/-- Counterexample to claim C7: when the email send throws, forgot-password
answers 500 for an existing account but 200 for a non-existing one — the
responses are not identical in every run, because the send is not inside an
inner try/catch. -/
theorem C7_counterexample :
    (forgotPassword "a@b.co"
        { secret := 1, now := 0, salt := 0, freshToken := "ft", freshId := "fid",
          emailOk := false, googleResult := none }
        { users := [{ id := "u1", email := "a@b.co", name := "A",
                      password := some (Digest.bcrypt "Valid123!" 7),
                      isVerified := true, verificationToken := none, verificationExpires := none,
                      resetPasswordToken := none, resetPasswordExpires := none,
                      googleId := none, picture := none }],
          refreshTokens := [] }).1 =
      { status := 500, error := some "Internal server error" }
    ∧ (forgotPassword "a@b.co"
        { secret := 1, now := 0, salt := 0, freshToken := "ft", freshId := "fid",
          emailOk := false, googleResult := none }
        { users := [], refreshTokens := [] }).1 =
      { status := 200,
        message := some "If an account with that email exists, we have sent a password reset link." }
    ∧ (forgotPassword "a@b.co"
        { secret := 1, now := 0, salt := 0, freshToken := "ft", freshId := "fid",
          emailOk := false, googleResult := none }
        { users := [{ id := "u1", email := "a@b.co", name := "A",
                      password := some (Digest.bcrypt "Valid123!" 7),
                      isVerified := true, verificationToken := none, verificationExpires := none,
                      resetPasswordToken := none, resetPasswordExpires := none,
                      googleId := none, picture := none }],
          refreshTokens := [] }).1 ≠
      (forgotPassword "a@b.co"
        { secret := 1, now := 0, salt := 0, freshToken := "ft", freshId := "fid",
          emailOk := false, googleResult := none }
        { users := [], refreshTokens := [] }).1 := by
  decide

/-- Claim C7 as amended: provided the email send does not throw, the
forgot-password response is the same 200 with the same generic message for
every store, in particular identical whether or not a user with the email
exists. -/
theorem C7_forgot_uniform (email : String) (env : Env) (s1 s2 : Store)
    (hok : env.emailOk = true) (hshape : forgotParse email = none) :
    (forgotPassword email env s1).1 =
      { status := 200,
        message := some "If an account with that email exists, we have sent a password reset link." }
    ∧ (forgotPassword email env s1).1 = (forgotPassword email env s2).1 := by
  have key : ∀ s : Store, (forgotPassword email env s).1 =
      { status := 200,
        message := some "If an account with that email exists, we have sent a password reset link." } := by
    intro s
    simp only [forgotPassword, hshape]
    cases hf : s.users.find? (fun u => u.email == email) with
    | none => simp [hf]
    | some u => simp [hf, hok]
  exact ⟨key s1, (key s1).trans (key s2).symm⟩

/-- Witness for the amended C7: with a succeeding send, the same response
for a store that has the account and one that does not. -/
theorem C7_forgot_uniform_witness :
    (forgotPassword "a@b.co"
        { secret := 1, now := 0, salt := 0, freshToken := "ft", freshId := "fid",
          emailOk := true, googleResult := none }
        { users := [{ id := "u1", email := "a@b.co", name := "A",
                      password := some (Digest.bcrypt "Valid123!" 7),
                      isVerified := true, verificationToken := none, verificationExpires := none,
                      resetPasswordToken := none, resetPasswordExpires := none,
                      googleId := none, picture := none }],
          refreshTokens := [] }).1 =
      (forgotPassword "a@b.co"
        { secret := 1, now := 0, salt := 0, freshToken := "ft", freshId := "fid",
          emailOk := true, googleResult := none }
        { users := [], refreshTokens := [] }).1 :=
  (C7_forgot_uniform "a@b.co"
    { secret := 1, now := 0, salt := 0, freshToken := "ft", freshId := "fid",
      emailOk := true, googleResult := none }
    { users := [{ id := "u1", email := "a@b.co", name := "A",
                  password := some (Digest.bcrypt "Valid123!" 7),
                  isVerified := true, verificationToken := none, verificationExpires := none,
                  resetPasswordToken := none, resetPasswordExpires := none,
                  googleId := none, picture := none }],
      refreshTokens := [] }
    { users := [], refreshTokens := [] }
    rfl (by decide)).2

/-- Counterexample to claim C9: when the provider payload resolves to an
email but carries no subject id (the userinfo fallback path), an existing
user whose googleId is unset is NOT backfilled — the record is unchanged —
even though the flow succeeds and issues tokens. -/
theorem C9_counterexample :
    (googleAuth (some "t")
        { secret := 1, now := 0, salt := 0, freshToken := "ft", freshId := "fid",
          emailOk := true,
          googleResult := some { sub := none, email := some "a@b.co", name := some "A",
                                 given_name := none, picture := none } }
        { users := [{ id := "u1", email := "a@b.co", name := "A",
                      password := some (Digest.bcrypt "Valid123!" 7),
                      isVerified := true, verificationToken := none, verificationExpires := none,
                      resetPasswordToken := none, resetPasswordExpires := none,
                      googleId := none, picture := none }],
          refreshTokens := [] }).1.status = 200
    ∧ (googleAuth (some "t")
        { secret := 1, now := 0, salt := 0, freshToken := "ft", freshId := "fid",
          emailOk := true,
          googleResult := some { sub := none, email := some "a@b.co", name := some "A",
                                 given_name := none, picture := none } }
        { users := [{ id := "u1", email := "a@b.co", name := "A",
                      password := some (Digest.bcrypt "Valid123!" 7),
                      isVerified := true, verificationToken := none, verificationExpires := none,
                      resetPasswordToken := none, resetPasswordExpires := none,
                      googleId := none, picture := none }],
          refreshTokens := [] }).2.users =
      [{ id := "u1", email := "a@b.co", name := "A",
         password := some (Digest.bcrypt "Valid123!" 7),
         isVerified := true, verificationToken := none, verificationExpires := none,
         resetPasswordToken := none, resetPasswordExpires := none,
         googleId := none, picture := none }] := by
  decide

/-- Claim C9 as amended: when the provider token resolves to an email, a
first-time email creates exactly one new user with isVerified true and no
password hash; an already-known email creates no second record and the
googleId is backfilled when it is unset AND the payload carries a subject
id; in both cases an access+refresh pair is issued and a RefreshToken row
is persisted. -/
theorem C9_google_federation (tok : String) (env : Env) (s : Store)
    (g : GooglePayload) (gmail : String)
    (hg : env.googleResult = some g) (he : g.email = some gmail) :
    (∀ (u : User) (st : Store),
        googleFinish u env st =
          ({ status := 200, message := some "Google authentication successful",
             user := some { id := u.id, email := u.email, name := u.name,
                            isVerified := u.isVerified, picture := u.picture },
             tokens := some (generateAccessToken u.id env.secret env.now,
                             generateRefreshToken u.id env.secret env.now) },
           { st with refreshTokens := st.refreshTokens ++
               [{ token := generateRefreshToken u.id env.secret env.now, userId := u.id,
                  expiresAt := env.now + refreshTokenLifetime }] }))
    ∧ (s.users.find? (fun v => v.email == gmail) = none →
        googleAuth (some tok) env s =
          googleFinish (newGoogleUser env g gmail) env
            { s with users := s.users ++ [newGoogleUser env g gmail] }
        ∧ (newGoogleUser env g gmail).isVerified = true
        ∧ (newGoogleUser env g gmail).password = none)
    ∧ (∀ u : User, s.users.find? (fun v => v.email == gmail) = some u →
        (googleAuth (some tok) env s).2.users.length = s.users.length
        ∧ (googleAuth (some tok) env s).1.status = 200
        ∧ (googleAuth (some tok) env s).1.tokens ≠ none
        ∧ (googleAuth (some tok) env s).2.refreshTokens.length = s.refreshTokens.length + 1
        ∧ (∀ sub : String, u.googleId = none → g.sub = some sub →
            ∀ v ∈ (googleAuth (some tok) env s).2.users, v.id = u.id →
              v.googleId = some sub)) := by
  refine ⟨fun u st => rfl, ?_, ?_⟩
  · intro hnone
    exact ⟨by simp only [googleAuth, hg, he, hnone], rfl, rfl⟩
  · intro u hfind
    have hrun : googleAuth (some tok) env s =
        (match u.googleId, g.sub with
         | none, some sub =>
           googleFinish { u with googleId := some sub, isVerified := true, picture := g.picture } env
             { s with users := updateUser s.users u.id (fun v =>
                 { v with googleId := some sub, isVerified := true, picture := g.picture }) }
         | _, _ => googleFinish u env s) := by
      simp only [googleAuth, hg, he, hfind]
    cases hgid : u.googleId with
    | some gid =>
      rw [hgid] at hrun
      have hrun2 : googleAuth (some tok) env s = googleFinish u env s := by
        rw [hrun]
      refine ⟨by rw [hrun2]; rfl, by rw [hrun2]; rfl, by rw [hrun2]; simp [googleFinish], ?_, ?_⟩
      · rw [hrun2]
        simp [googleFinish]
      · intro sub hcontra
        cases hcontra
    | none =>
      rw [hgid] at hrun
      cases hsub : g.sub with
      | none =>
        rw [hsub] at hrun
        have hrun2 : googleAuth (some tok) env s = googleFinish u env s := by
          rw [hrun]
        refine ⟨by rw [hrun2]; rfl, by rw [hrun2]; rfl, by rw [hrun2]; simp [googleFinish], ?_, ?_⟩
        · rw [hrun2]
          simp [googleFinish]
        · intro sub hnone hcontra
          cases hcontra
      | some sub =>
        rw [hsub] at hrun
        refine ⟨?_, by rw [hrun]; rfl, by rw [hrun]; simp [googleFinish], ?_, ?_⟩
        · rw [hrun]
          simp [googleFinish, updateUser]
        · rw [hrun]
          simp [googleFinish]
        · intro sub2 hnone hsub2
          injection hsub2 with hsubeq
          subst hsubeq
          intro v hv hid
          rw [hrun] at hv
          simp only [googleFinish, updateUser, List.mem_map] at hv
          obtain ⟨w, hw, hveq⟩ := hv
          by_cases hwid : (w.id == u.id) = true
          · rw [if_pos hwid] at hveq
            subst hveq
            rfl
          · rw [if_neg hwid] at hveq
            subst hveq
            exact absurd (beq_iff_eq.mpr hid) hwid

/-- Witness for the amended C9: a known email whose record lacks a googleId
and a payload with a subject id; the record count is preserved and the row
is backfilled. -/
theorem C9_google_federation_witness :
    (googleAuth (some "t")
        { secret := 1, now := 0, salt := 0, freshToken := "ft", freshId := "fid",
          emailOk := true,
          googleResult := some { sub := some "sub1", email := some "a@b.co", name := some "A",
                                 given_name := none, picture := none } }
        { users := [{ id := "u1", email := "a@b.co", name := "A",
                      password := some (Digest.bcrypt "Valid123!" 7),
                      isVerified := true, verificationToken := none, verificationExpires := none,
                      resetPasswordToken := none, resetPasswordExpires := none,
                      googleId := none, picture := none }],
          refreshTokens := [] }).2.users.length = 1
    ∧ (googleAuth (some "t")
        { secret := 1, now := 0, salt := 0, freshToken := "ft", freshId := "fid",
          emailOk := true,
          googleResult := some { sub := some "sub1", email := some "a@b.co", name := some "A",
                                 given_name := none, picture := none } }
        { users := [{ id := "u1", email := "a@b.co", name := "A",
                      password := some (Digest.bcrypt "Valid123!" 7),
                      isVerified := true, verificationToken := none, verificationExpires := none,
                      resetPasswordToken := none, resetPasswordExpires := none,
                      googleId := none, picture := none }],
          refreshTokens := [] }).2.refreshTokens.length = 1 := by
  have h := (C9_google_federation "t"
    { secret := 1, now := 0, salt := 0, freshToken := "ft", freshId := "fid",
      emailOk := true,
      googleResult := some { sub := some "sub1", email := some "a@b.co", name := some "A",
                             given_name := none, picture := none } }
    { users := [{ id := "u1", email := "a@b.co", name := "A",
                  password := some (Digest.bcrypt "Valid123!" 7),
                  isVerified := true, verificationToken := none, verificationExpires := none,
                  resetPasswordToken := none, resetPasswordExpires := none,
                  googleId := none, picture := none }],
      refreshTokens := [] }
    { sub := some "sub1", email := some "a@b.co", name := some "A",
      given_name := none, picture := none }
    "a@b.co" rfl rfl).2.2
    { id := "u1", email := "a@b.co", name := "A",
      password := some (Digest.bcrypt "Valid123!" 7),
      isVerified := true, verificationToken := none, verificationExpires := none,
      resetPasswordToken := none, resetPasswordExpires := none,
      googleId := none, picture := none }
    (by decide)
  exact ⟨h.1, h.2.2.2.1⟩

end KnowledgeStore
